import Mathlib

/-!
Verification of the native Windows spooler transport of the go-escpos
library (`printer_windows.go`) via a shallow embedding in Lean 4.

The Go code drives the winspool.drv API through raw syscalls.  Each OS
call's outcome is an *input* to the embedded function (an oracle record
whose fields mirror the `ret`/`written`/`err` values the syscall returns),
and every embedded function additionally returns the ordered list of OS
calls it issued, so that properties about which calls are performed can be
stated directly.  A Go runtime panic (indexing an empty slice) is embedded
as `Option.none`.
-/

namespace Escpos

/-- The OS calls `printer_windows.go` can issue against winspool.drv,
carrying the arguments relevant to the claims. -/
inductive OsCall where
  | openPrinterW (name : String)
  | closePrinter (handle : Nat)
  | startDocPrinterW (handle : Nat)
  | endDocPrinter (handle : Nat)
  | startPagePrinter (handle : Nat)
  | endPagePrinter (handle : Nat)
  | writePrinter (handle : Nat) (data : List Nat)
  | enumPrintersW
  deriving DecidableEq, Repr

/-- The Go errors produced by `printer_windows.go` (each `fmt.Errorf` site),
plus the spec-level `InvalidArgument` used by the command encoder. -/
inductive GoErr where
  | invalidPrinterName
  | openFailed (name : String) (errCode : Nat)
  | startDocFailed (errCode : Nat)
  | startPageFailed (errCode : Nat)
  | printJobNotStarted
  | writeFailed (errCode : Nat)
  | closeFailed (errCode : Nat)
  | enumFailed (errCode : Nat)
  | readNotSupported
  | invalidArgument
  deriving DecidableEq, Repr

/-- The mutable state of Go's `WindowsPrinter` struct: printer name, the OS
handle (`0` = no handle, as the Go code tests `wp.handle != 0`), the capture
buffer backing `Bytes()`, and the `jobStarted` flag. -/
structure WindowsPrinter where
  name : String
  handle : Nat
  buffer : List Nat
  jobStarted : Bool
  deriving DecidableEq, Repr

/-- Outcome of one `WritePrinter` syscall: the nonzero-on-success return
value, the byte count the OS stored through the `written` pointer, and the
accompanying error code. -/
structure WriteSys where
  ret : Nat
  written : Nat
  errCode : Nat
  deriving DecidableEq, Repr

/-- Outcomes of the syscalls `Close` can issue.  The Go code discards the
results of `EndPagePrinter` and `EndDocPrinter`; they are still part of the
oracle so that "a step errored" is expressible. -/
structure CloseSys where
  endPageRet : Nat
  endPageErr : Nat
  endDocRet : Nat
  endDocErr : Nat
  closeRet : Nat
  closeErr : Nat
  deriving DecidableEq, Repr

/-- Outcomes of the syscalls `NewWindowsPrinter` can issue:
`UTF16PtrFromString` on the printer name (fails only on interior NUL),
`OpenPrinterW` (with the handle it stores on success), the document and
page framing calls, plus the `Close` oracle for the failure path. -/
structure OpenSys where
  nameValid : Bool
  openRet : Nat
  openHandle : Nat
  openErr : Nat
  startDocRet : Nat
  startDocErr : Nat
  startPageRet : Nat
  startPageErr : Nat
  closeSys : CloseSys
  deriving DecidableEq, Repr

/-- Outcomes of the two `EnumPrintersW` calls in `GetInstalledPrinters`:
the required byte count stored by the sizing query, the second call's
return value and error code, and the `PRINTER_INFO_4` entries the OS fills
in (`none` models a NULL `PrinterName`). -/
structure EnumSys where
  needed : Nat
  ret : Nat
  errCode : Nat
  entries : List (Option String)
  deriving DecidableEq, Repr

/-- `func (wp *WindowsPrinter) Write(p []byte) (int, error)`.

Returns `none` for the runtime panic the Go code hits when it evaluates
`&p[0]` on an empty slice; otherwise `some` of the updated state, the OS
calls issued, the returned count, and the returned error (`none` = nil). -/
def WindowsPrinter.write (wp : WindowsPrinter) (p : List Nat) (os : WriteSys) :
    Option (WindowsPrinter × List OsCall × Nat × Option GoErr) :=
  if !wp.jobStarted then
    some (wp, [], 0, some GoErr.printJobNotStarted)
  else if p.isEmpty then
    none
  else if os.ret = 0 then
    some (wp, [OsCall.writePrinter wp.handle p], os.written,
      some (GoErr.writeFailed os.errCode))
  else
    some ({ wp with buffer := wp.buffer ++ p },
      [OsCall.writePrinter wp.handle p], os.written, none)

/-- `func (wp *WindowsPrinter) Close() error`.

If `jobStarted`, issues `EndPagePrinter` then `EndDocPrinter`, discarding
their results, and clears the flag; then, if the handle is nonzero, issues
`ClosePrinter`, returning its error on failure (leaving the handle set) and
clearing the handle on success. -/
def WindowsPrinter.close (wp : WindowsPrinter) (os : CloseSys) :
    WindowsPrinter × List OsCall × Option GoErr :=
  let wp1 : WindowsPrinter :=
    if wp.jobStarted then { wp with jobStarted := false } else wp
  let calls1 : List OsCall :=
    if wp.jobStarted then
      [OsCall.endPagePrinter wp.handle, OsCall.endDocPrinter wp.handle]
    else []
  if wp1.handle ≠ 0 then
    if os.closeRet = 0 then
      (wp1, calls1 ++ [OsCall.closePrinter wp1.handle],
        some (GoErr.closeFailed os.closeErr))
    else
      ({ wp1 with handle := 0 }, calls1 ++ [OsCall.closePrinter wp1.handle],
        none)
  else
    (wp1, calls1, none)

/-- `func (wp *WindowsPrinter) startDoc() error`.

The `UTF16PtrFromString` conversions of the constant strings
"ESC/POS Document" and "RAW" cannot fail (no interior NUL), so they are
not oracle inputs.  Issues `StartDocPrinterW`, then on success
`StartPagePrinter`, setting `jobStarted` only when both succeed. -/
def WindowsPrinter.startDoc (wp : WindowsPrinter) (os : OpenSys) :
    WindowsPrinter × List OsCall × Option GoErr :=
  if os.startDocRet = 0 then
    (wp, [OsCall.startDocPrinterW wp.handle],
      some (GoErr.startDocFailed os.startDocErr))
  else if os.startPageRet = 0 then
    (wp, [OsCall.startDocPrinterW wp.handle, OsCall.startPagePrinter wp.handle],
      some (GoErr.startPageFailed os.startPageErr))
  else
    ({ wp with jobStarted := true },
      [OsCall.startDocPrinterW wp.handle, OsCall.startPagePrinter wp.handle],
      none)

/-- `func NewWindowsPrinter(name string) (Printer, error)`.

Converts the name, issues `OpenPrinterW`, then `startDoc`; on a `startDoc`
failure it calls `wp.Close()` (result discarded) before returning the
error.  Returns the constructed transport state (the Go code wraps it in
`NewPrinter`) and the OS calls issued. -/
def NewWindowsPrinter (name : String) (os : OpenSys) :
    Except GoErr WindowsPrinter × List OsCall :=
  if !os.nameValid then
    (Except.error GoErr.invalidPrinterName, [])
  else if os.openRet = 0 then
    (Except.error (GoErr.openFailed name os.openErr), [OsCall.openPrinterW name])
  else
    let wp : WindowsPrinter :=
      { name := name, handle := os.openHandle, buffer := [], jobStarted := false }
    let sd := wp.startDoc os
    match sd.2.2 with
    | some e =>
        let cl := sd.1.close os.closeSys
        (Except.error e, OsCall.openPrinterW name :: (sd.2.1 ++ cl.2.1))
    | none =>
        (Except.ok sd.1, OsCall.openPrinterW name :: sd.2.1)

/-- `func (wp *WindowsPrinter) Bytes() []byte`. -/
def WindowsPrinter.bytes (wp : WindowsPrinter) : List Nat :=
  wp.buffer

/-- `func GetInstalledPrinters() ([]string, error)`.

First a sizing query (its return value is not checked); if the required
size is zero, returns the empty list with nil error.  Otherwise the second
call either fails (`ret = 0`) or yields the entries, from which non-NULL
printer names are collected in order. -/
def GetInstalledPrinters (os : EnumSys) :
    Except GoErr (List String) × List OsCall :=
  if os.needed = 0 then
    (Except.ok [], [OsCall.enumPrintersW])
  else if os.ret = 0 then
    (Except.error (GoErr.enumFailed os.errCode),
      [OsCall.enumPrintersW, OsCall.enumPrintersW])
  else
    (Except.ok (os.entries.filterMap id),
      [OsCall.enumPrintersW, OsCall.enumPrintersW])

/-- Runs a sequence of `Write` calls, threading the state; `none` as soon
as one call panics.  Each element pairs the payload with that call's
`WritePrinter` outcome. -/
def runWrites (wp : WindowsPrinter) (ops : List (List Nat × WriteSys)) :
    Option WindowsPrinter :=
  match ops with
  | [] => some wp
  | (p, os) :: rest =>
    match wp.write p os with
    | none => none
    | some r => runWrites r.1 rest

/-- The concatenated payloads of the operations whose `WritePrinter`
outcome reports success (`ret ≠ 0`): under a started job these are exactly
the writes that return a nil error. -/
def okPayloads (ops : List (List Nat × WriteSys)) : List Nat :=
  ((ops.filter (fun po => po.2.ret ≠ 0)).map (fun po => po.1)).flatten

/-- Modelled from the spec: the command encoder's `SetCharacterSize`
(its source file is not among the provided sources; only callers are).
Per the spec, `SetCharacterSize(widthMultiplier, heightMultiplier)` takes
each multiplier in [0,7] and encodes to the command `GS ! n` with the one
parameter byte `n = width<<4 | height`; values outside [0,7] fail with
`InvalidArgument` and no clamping. -/
def SetCharacterSize (width height : Int) : Except GoErr (List Nat) :=
  if 0 ≤ width ∧ width ≤ 7 ∧ 0 ≤ height ∧ height ≤ 7 then
    Except.ok [0x1D, 0x21, width.toNat <<< 4 ||| height.toNat]
  else
    Except.error GoErr.invalidArgument

/-- C3: with the job not started (`jobStarted = false`, i.e. any state other
than PageStarted), `Write` always fails with the protocol-state error
"print job not started", issues no OS call, and leaves the transport state
(handle, buffer, flag) unchanged. -/
theorem write_outside_page_started_fails (wp : WindowsPrinter)
    (p : List Nat) (os : WriteSys) (h : wp.jobStarted = false) :
    wp.write p os = some (wp, [], 0, some GoErr.printJobNotStarted) := by
  simp [WindowsPrinter.write, h]

/-- Witness for C3: a concrete transport with the job not started. -/
theorem write_outside_page_started_fails_witness :
    ({ name := "p", handle := 5, buffer := [1], jobStarted := false } :
        WindowsPrinter).write [2, 3] ⟨1, 2, 0⟩ =
      some ({ name := "p", handle := 5, buffer := [1], jobStarted := false },
        [], 0, some GoErr.printJobNotStarted) :=
  write_outside_page_started_fails _ _ _ rfl

/-- C4: `Close` is idempotent.  If a first `Close` returns success (nil
error), the second `Close` performs no OS calls, returns success, and
leaves the state unchanged. -/
theorem close_idempotent (wp : WindowsPrinter) (os1 os2 : CloseSys)
    (h : (wp.close os1).2.2 = none) :
    ((wp.close os1).1.close os2) = ((wp.close os1).1, [], none) := by
  unfold WindowsPrinter.close at *
  by_cases hj : wp.jobStarted <;> by_cases hh : wp.handle = 0 <;>
    by_cases hr : os1.closeRet = 0 <;>
    simp_all [WindowsPrinter.close]

/-- Witness for C4: close an open-with-started-job transport successfully,
then close again. -/
theorem close_idempotent_witness :
    ((({ name := "p", handle := 7, buffer := [], jobStarted := true } :
          WindowsPrinter).close ⟨1, 0, 1, 0, 1, 0⟩).1.close ⟨1, 0, 1, 0, 1, 0⟩)
      = ((({ name := "p", handle := 7, buffer := [], jobStarted := true } :
          WindowsPrinter).close ⟨1, 0, 1, 0, 1, 0⟩).1, [], none) :=
  close_idempotent _ _ _ (by decide)

/-- C5: from a state where only `Open` succeeded (nonzero handle, job not
started), `Close` issues exactly one OS call — `ClosePrinter` — never
end-page or end-document; and when that call succeeds the handle is
released (set to 0) and `Close` returns success. -/
theorem close_after_open_only (wp : WindowsPrinter) (os : CloseSys)
    (hh : wp.handle ≠ 0) (hj : wp.jobStarted = false) :
    (wp.close os).2.1 = [OsCall.closePrinter wp.handle] ∧
      (os.closeRet ≠ 0 →
        (wp.close os).1.handle = 0 ∧ (wp.close os).2.2 = none) := by
  unfold WindowsPrinter.close
  by_cases hr : os.closeRet = 0 <;> simp_all

/-- Witness for C5: a transport holding handle 9 with no job started,
with a succeeding `ClosePrinter`. -/
theorem close_after_open_only_witness :
    ((({ name := "p", handle := 9, buffer := [], jobStarted := false } :
          WindowsPrinter).close ⟨1, 0, 1, 0, 1, 0⟩).2.1
        = [OsCall.closePrinter 9] ∧
      ((({ name := "p", handle := 9, buffer := [], jobStarted := false } :
          WindowsPrinter).close ⟨1, 0, 1, 0, 1, 0⟩).1.handle = 0 ∧
        (({ name := "p", handle := 9, buffer := [], jobStarted := false } :
          WindowsPrinter).close ⟨1, 0, 1, 0, 1, 0⟩).2.2 = none)) :=
  ⟨(close_after_open_only _ _ (by decide) rfl).1,
    (close_after_open_only _ ⟨1, 0, 1, 0, 1, 0⟩ (by decide) rfl).2 (by decide)⟩

/-- C6: when the sizing query reports that no buffer is needed (no
printers installed), `GetInstalledPrinters` returns the empty list with a
nil error. -/
theorem enum_no_printers_empty (os : EnumSys) (h : os.needed = 0) :
    (GetInstalledPrinters os).1 = Except.ok [] := by
  simp [GetInstalledPrinters, h]

/-- Witness for C6: an oracle reporting zero required bytes. -/
theorem enum_no_printers_empty_witness :
    (GetInstalledPrinters ⟨0, 0, 5, []⟩).1 = Except.ok ([] : List String) :=
  enum_no_printers_empty _ rfl

/-- C9: with the job started, `Write` on an empty byte slice is not
guarded: the Go code evaluates `&p[0]` unconditionally, which panics on an
empty slice, so the call faults (modelled as `none`) instead of returning
a result. -/
theorem write_empty_slice_faults (wp : WindowsPrinter) (os : WriteSys)
    (h : wp.jobStarted = true) :
    wp.write [] os = none := by
  simp [WindowsPrinter.write, h]

/-- Witness for C9: a started job written an empty payload. -/
theorem write_empty_slice_faults_witness :
    ({ name := "p", handle := 3, buffer := [], jobStarted := true } :
        WindowsPrinter).write [] ⟨1, 0, 0⟩ = none :=
  write_empty_slice_faults _ _ rfl

/-- C1 counterexample: with the job started and handle 4, let the end-page
step fail (`endPageRet = 0`, error code 5) while releasing the handle
succeeds.  All three teardown steps execute, yet `Close` returns nil — not
the first error encountered (the end-page failure), refuting the claim
that Close reports the first error among the steps. -/
theorem close_first_error_counterexample :
    (⟨0, 5, 1, 0, 1, 0⟩ : CloseSys).endPageRet = 0 ∧
    (({ name := "p", handle := 4, buffer := [], jobStarted := true } :
        WindowsPrinter).close ⟨0, 5, 1, 0, 1, 0⟩).2.1
      = [OsCall.endPagePrinter 4, OsCall.endDocPrinter 4,
          OsCall.closePrinter 4] ∧
    (({ name := "p", handle := 4, buffer := [], jobStarted := true } :
        WindowsPrinter).close ⟨0, 5, 1, 0, 1, 0⟩).2.2 = none := by decide

/-- C1 amended: from a state with the job started and a nonzero handle,
`Close` executes every teardown step — end-page, end-document, release
handle, in that reverse order — regardless of any step's failure; the
results of end-page and end-document are discarded, and the error `Close`
returns is nil unless the release-handle call itself fails, in which case
that error is returned. -/
theorem close_unwinds_all_steps (wp : WindowsPrinter) (os : CloseSys)
    (hj : wp.jobStarted = true) (hh : wp.handle ≠ 0) :
    (wp.close os).2.1 = [OsCall.endPagePrinter wp.handle,
        OsCall.endDocPrinter wp.handle, OsCall.closePrinter wp.handle] ∧
    (wp.close os).2.2 =
      (if os.closeRet = 0 then some (GoErr.closeFailed os.closeErr)
       else none) := by
  unfold WindowsPrinter.close
  by_cases hr : os.closeRet = 0 <;> simp_all

/-- Witness for the amended C1: job started on handle 4, every step failing;
Close still walks all three steps and reports the release failure. -/
theorem close_unwinds_all_steps_witness :
    ((({ name := "p", handle := 4, buffer := [], jobStarted := true } :
        WindowsPrinter).close ⟨0, 5, 0, 6, 0, 7⟩).2.1
      = [OsCall.endPagePrinter 4, OsCall.endDocPrinter 4,
          OsCall.closePrinter 4] ∧
    (({ name := "p", handle := 4, buffer := [], jobStarted := true } :
        WindowsPrinter).close ⟨0, 5, 0, 6, 0, 7⟩).2.2 =
      (if (0 : Nat) = 0 then some (GoErr.closeFailed 7) else none)) :=
  close_unwinds_all_steps _ _ rfl (by decide)

/-- C2 counterexample: with the job started, write one byte while the OS
call reports success (`ret = 1`) but zero bytes written.  `Write` returns
a nil error with count 0, so it succeeds although fewer bytes than
requested were reported written — refuting the claim that Write fails with
a transport-write error on a short count. -/
theorem write_partial_success_counterexample :
    (({ name := "p", handle := 2, buffer := [], jobStarted := true } :
        WindowsPrinter).write [7] ⟨1, 0, 0⟩)
      = some ({ name := "p", handle := 2, buffer := [7], jobStarted := true },
          [OsCall.writePrinter 2 [7]], 0, none) ∧
    (0 : Nat) < List.length [7] := by decide

/-- C2 amended: with the job started and a nonempty payload, `Write`
issues exactly one `WritePrinter` call (no retry), always returns the
OS-reported written count, and fails (with the write error) exactly when
the OS call itself reports failure (`ret = 0`); a successful OS call is
accepted as success even if the reported count is short of the request. -/
theorem write_error_iff_call_failed (wp : WindowsPrinter) (p : List Nat)
    (os : WriteSys) (hj : wp.jobStarted = true) (hp : p ≠ []) :
    wp.write p os = some
      ((if os.ret = 0 then wp else { wp with buffer := wp.buffer ++ p }),
        [OsCall.writePrinter wp.handle p], os.written,
        (if os.ret = 0 then some (GoErr.writeFailed os.errCode)
         else none)) := by
  unfold WindowsPrinter.write
  by_cases hr : os.ret = 0 <;> simp [hj, hp, hr]

/-- Witness for the amended C2: a started job, one-byte payload, failing
OS write call. -/
theorem write_error_iff_call_failed_witness :
    ({ name := "p", handle := 2, buffer := [], jobStarted := true } :
        WindowsPrinter).write [7] ⟨0, 0, 9⟩
      = some (
        (if (0 : Nat) = 0 then
          ({ name := "p", handle := 2, buffer := [], jobStarted := true } :
            WindowsPrinter)
         else { name := "p", handle := 2, buffer := [7],
                jobStarted := true }),
        [OsCall.writePrinter 2 [7]], 0,
        (if (0 : Nat) = 0 then some (GoErr.writeFailed 9) else none)) :=
  write_error_iff_call_failed _ _ _ rfl (by decide)

/-- C8: if the printer name converts, `OpenPrinterW` succeeds (storing a
nonzero handle) and document/page framing then fails, `NewWindowsPrinter`
returns an error and its last OS call is `ClosePrinter` on that handle:
the constructor releases the handle via `Close` before returning, so a
failed construction does not leave the OS handle held. -/
theorem new_printer_framing_failure_releases_handle (name : String)
    (os : OpenSys) (hn : os.nameValid = true) (ho : os.openRet ≠ 0)
    (hh : os.openHandle ≠ 0)
    (hf : os.startDocRet = 0 ∨ os.startPageRet = 0) :
    (NewWindowsPrinter name os).1.toOption = none ∧
    (NewWindowsPrinter name os).2.getLast?
      = some (OsCall.closePrinter os.openHandle) := by
  unfold NewWindowsPrinter WindowsPrinter.startDoc WindowsPrinter.close
  by_cases hd : os.startDocRet = 0 <;> by_cases hp : os.startPageRet = 0 <;>
    by_cases hc : os.closeSys.closeRet = 0 <;> simp_all [Except.toOption]

/-- Witness for C8: opening succeeds with handle 11, the page framing call
fails. -/
theorem new_printer_framing_failure_releases_handle_witness :
    ((NewWindowsPrinter "p" ⟨true, 1, 11, 0, 1, 0, 0, 3,
        ⟨1, 0, 1, 0, 1, 0⟩⟩).1.toOption = none ∧
    (NewWindowsPrinter "p" ⟨true, 1, 11, 0, 1, 0, 0, 3,
        ⟨1, 0, 1, 0, 1, 0⟩⟩).2.getLast?
      = some (OsCall.closePrinter 11)) :=
  new_printer_framing_failure_releases_handle _ _ rfl (by decide) (by decide)
    (Or.inr rfl)

/-- C10: over any sequence of `Write` calls under a started job that runs
to completion, `Bytes()` returns the initial capture buffer followed by
exactly the concatenated payloads of the successful writes in order; and
any single `Write` that returns an error leaves the capture buffer
unchanged. -/
theorem bytes_concat_of_ok_writes :
    (∀ (wp wp' : WindowsPrinter) (ops : List (List Nat × WriteSys)),
      wp.jobStarted = true → runWrites wp ops = some wp' →
      wp'.bytes = wp.bytes ++ okPayloads ops) ∧
    (∀ (wp st : WindowsPrinter) (p : List Nat) (os : WriteSys)
      (calls : List OsCall) (n : Nat) (e : GoErr),
      wp.write p os = some (st, calls, n, some e) → st.buffer = wp.buffer) := by
  constructor
  · intro wp wp' ops
    induction ops generalizing wp with
    | nil =>
        intro hj hr
        simp only [runWrites] at hr
        cases hr
        simp [okPayloads]
    | cons po rest ih =>
        obtain ⟨p, os⟩ := po
        intro hj hr
        by_cases hpe : p = []
        · subst hpe
          simp [runWrites, WindowsPrinter.write, hj] at hr
        · by_cases hret : os.ret = 0
          · have hw : wp.write p os = some (wp,
                [OsCall.writePrinter wp.handle p], os.written,
                some (GoErr.writeFailed os.errCode)) := by
              simp [WindowsPrinter.write, hj, hpe, hret]
            simp only [runWrites, hw] at hr
            have := ih wp hj hr
            simpa [okPayloads, hret] using this
          · have hw : wp.write p os = some ({ wp with
                buffer := wp.buffer ++ p },
                [OsCall.writePrinter wp.handle p], os.written, none) := by
              simp [WindowsPrinter.write, hj, hpe, hret]
            simp only [runWrites, hw] at hr
            have := ih { wp with buffer := wp.buffer ++ p }
              (by simpa using hj) hr
            simp only [WindowsPrinter.bytes] at this ⊢
            rw [this]
            simp [okPayloads, hret, List.filter_cons]
  · intro wp st p os calls n e hw
    unfold WindowsPrinter.write at hw
    by_cases hj : wp.jobStarted <;> by_cases hp : p.isEmpty <;>
      by_cases hret : os.ret = 0 <;> simp_all

/-- Witness for C10: from initial capture `[0]`, three writes — two
succeeding with payloads `[1,2]` and `[4]`, one failing with payload
`[3]` — leave `Bytes()` equal to `[0] ++ [1,2] ++ [4]`. -/
theorem bytes_concat_of_ok_writes_witness :
    ({ name := "p", handle := 1, buffer := [0, 1, 2, 4],
        jobStarted := true } : WindowsPrinter).bytes
      = ({ name := "p", handle := 1, buffer := [0],
            jobStarted := true } : WindowsPrinter).bytes
        ++ okPayloads [([1, 2], ⟨1, 2, 0⟩), ([3], ⟨0, 0, 7⟩),
            ([4], ⟨1, 1, 0⟩)] :=
  bytes_concat_of_ok_writes.1 _ _ _ rfl (by decide)

/-- C7: for both multipliers in [0,7], `SetCharacterSize` encodes to the
single command `GS ! n` whose one parameter byte is
`width<<4 | height = 16*width + height`; for any multiplier outside [0,7]
it fails with `InvalidArgument` — no clamped encoding is produced. -/
theorem set_character_size_encoding (width height : Int) :
    ((0 ≤ width ∧ width ≤ 7 ∧ 0 ≤ height ∧ height ≤ 7) →
      SetCharacterSize width height
        = Except.ok [29, 33, 16 * width.toNat + height.toNat]) ∧
    (¬(0 ≤ width ∧ width ≤ 7 ∧ 0 ≤ height ∧ height ≤ 7) →
      SetCharacterSize width height = Except.error GoErr.invalidArgument) := by
  constructor
  · rintro ⟨hw0, hw7, hh0, hh7⟩
    have hw : width.toNat ≤ 7 := by omega
    have hh : height.toNat ≤ 7 := by omega
    rw [SetCharacterSize, if_pos ⟨hw0, hw7, hh0, hh7⟩]
    interval_cases h : width.toNat <;> interval_cases h2 : height.toNat <;> rfl
  · intro h
    rw [SetCharacterSize, if_neg h]

/-- Witness for C7: `SetCharacterSize 2 3` yields the parameter byte 35,
and `SetCharacterSize 8 0` is rejected. -/
theorem set_character_size_encoding_witness :
    SetCharacterSize 2 3
        = Except.ok [29, 33, 16 * (2:Int).toNat + (3:Int).toNat] ∧
      SetCharacterSize 8 0 = Except.error GoErr.invalidArgument :=
  ⟨(set_character_size_encoding 2 3).1 (by decide),
    (set_character_size_encoding 8 0).2 (by decide)⟩

end Escpos
